import Mathlib

/-!
Verification of the revocation subsystem of the step-ca certificates
repository: the JWS encoder helpers of `acme/api/revoke_test.go`, the ACME
revoke handler described in the specification, and the SSH revocation
request validation of `api/sshRevoke.go`.

Machine integers of the source are modelled as `Nat`/`Int`; byte slices as
`List Nat` with every element below 256; fallible operations return
`Option`/`Except`.
-/

namespace StepCA

/-! ## Byte-level primitives

`natBytes` models Go `big.Int.Bytes()`: the minimal big-endian byte
representation, empty for zero. -/

/-- Minimal big-endian byte representation of a natural number, as produced
by Go `big.Int.Bytes()` (the number 0 yields the empty slice). -/
def natBytes (n : Nat) : List Nat :=
  if h : n = 0 then [] else natBytes (n / 256) ++ [n % 256]
decreasing_by exact Nat.div_lt_self (Nat.pos_of_ne_zero h) (by norm_num)

/-- Big-endian interpretation of a byte list, as Go `big.Int.SetBytes`. -/
def bytesToNat (l : List Nat) : Nat :=
  l.foldl (fun acc b => acc * 256 + b) 0

/-- Left padding with zero bytes up to width `k`, as the `copy` into a
zeroed slice performed by the source. -/
def leftPad (k : Nat) (l : List Nat) : List Nat :=
  List.replicate (k - l.length) 0 ++ l

/-- ASCII code of the URL-safe base64 alphabet character at index `n`
(RFC 4648 section 5). -/
def b64Char (n : Nat) : Nat :=
  if n < 26 then 65 + n
  else if n < 52 then 97 + (n - 26)
  else if n < 62 then 48 + (n - 52)
  else if n = 62 then 45
  else 95

/-- Inverse of `b64Char`: alphabet index of an ASCII code, `none` for
codes outside the URL-safe base64 alphabet. -/
def b64CharInv (c : Nat) : Option Nat :=
  if 65 ≤ c ∧ c ≤ 90 then some (c - 65)
  else if 97 ≤ c ∧ c ≤ 122 then some (26 + (c - 97))
  else if 48 ≤ c ∧ c ≤ 57 then some (52 + (c - 48))
  else if c = 45 then some 62
  else if c = 95 then some 63
  else none

/-- Raw (unpadded) URL-safe base64 encoding of a byte list, as Go
`base64.RawURLEncoding.EncodeToString`; the output is the list of ASCII
codes of the encoded text. -/
def b64urlEncode : List Nat → List Nat
  | [] => []
  | [b1] => [b64Char (b1 / 4), b64Char (b1 % 4 * 16)]
  | [b1, b2] =>
    [b64Char (b1 / 4), b64Char (b1 % 4 * 16 + b2 / 16), b64Char (b2 % 16 * 4)]
  | b1 :: b2 :: b3 :: rest =>
    b64Char (b1 / 4) :: b64Char (b1 % 4 * 16 + b2 / 16) ::
      b64Char (b2 % 16 * 4 + b3 / 64) :: b64Char (b3 % 64) :: b64urlEncode rest

/-- Raw (unpadded) URL-safe base64 decoding, as Go
`base64.RawURLEncoding.DecodeString`; fails on characters outside the
alphabet and on an input length congruent to 1 modulo 4. -/
def b64urlDecode : List Nat → Option (List Nat)
  | [] => some []
  | [_] => none
  | [c1, c2] =>
    match b64CharInv c1, b64CharInv c2 with
    | some s1, some s2 => some [s1 * 4 + s2 / 16]
    | _, _ => none
  | [c1, c2, c3] =>
    match b64CharInv c1, b64CharInv c2, b64CharInv c3 with
    | some s1, some s2, some s3 =>
      some [s1 * 4 + s2 / 16, s2 % 16 * 16 + s3 / 4]
    | _, _, _ => none
  | c1 :: c2 :: c3 :: c4 :: rest =>
    match b64CharInv c1, b64CharInv c2, b64CharInv c3, b64CharInv c4,
        b64urlDecode rest with
    | some s1, some s2, some s3, some s4, some bs =>
      some ((s1 * 4 + s2 / 16) :: (s2 % 16 * 16 + s3 / 4) :: (s3 % 4 * 64 + s4) :: bs)
    | _, _, _, _, _ => none

theorem b64CharInv_b64Char : ∀ s, s < 64 → b64CharInv (b64Char s) = some s := by
  decide

theorem b64url_roundtrip (l : List Nat) (h : ∀ b ∈ l, b < 256) :
    b64urlDecode (b64urlEncode l) = some l := by
  match l with
  | [] => simp [b64urlEncode, b64urlDecode]
  | [b1] =>
    have h1 : b1 < 256 := h b1 (by simp)
    simp only [b64urlEncode, b64urlDecode]
    rw [b64CharInv_b64Char _ (by omega), b64CharInv_b64Char _ (by omega)]
    simp only [Option.some.injEq, List.cons.injEq, and_true]
    omega
  | [b1, b2] =>
    have h1 : b1 < 256 := h b1 (by simp)
    have h2 : b2 < 256 := h b2 (by simp)
    simp only [b64urlEncode, b64urlDecode]
    rw [b64CharInv_b64Char _ (by omega), b64CharInv_b64Char _ (by omega),
      b64CharInv_b64Char _ (by omega)]
    simp only [Option.some.injEq, List.cons.injEq, and_true]
    omega
  | b1 :: b2 :: b3 :: rest =>
    have h1 : b1 < 256 := h b1 (by simp)
    have h2 : b2 < 256 := h b2 (by simp)
    have h3 : b3 < 256 := h b3 (by simp)
    have ih := b64url_roundtrip rest (fun b hb => h b (by simp [hb]))
    simp only [b64urlEncode, b64urlDecode]
    rw [b64CharInv_b64Char _ (by omega), b64CharInv_b64Char _ (by omega),
      b64CharInv_b64Char _ (by omega), b64CharInv_b64Char _ (by omega), ih]
    simp only [Option.some.injEq, List.cons.injEq]
    exact ⟨by omega, by omega, by omega, trivial⟩

theorem natBytes_length_le : ∀ (k n : Nat), n < 256 ^ k → (natBytes n).length ≤ k := by
  intro k
  induction k with
  | zero =>
    intro n hn
    have : n = 0 := by simpa using hn
    subst this
    simp [natBytes]
  | succ k ih =>
    intro n hn
    by_cases h : n = 0
    · subst h; simp [natBytes]
    · rw [natBytes, dif_neg h]
      have hdiv : n / 256 < 256 ^ k := by
        rw [Nat.div_lt_iff_lt_mul (by norm_num : 0 < 256)]
        calc n < 256 ^ (k + 1) := hn
          _ = 256 ^ k * 256 := by rw [pow_succ]
      have := ih (n / 256) hdiv
      simp only [List.length_append, List.length_cons, List.length_nil]
      omega

theorem leftPad_length (k : Nat) (l : List Nat) (h : l.length ≤ k) :
    (leftPad k l).length = k := by
  simp only [leftPad, List.length_append, List.length_replicate]
  omega

/-! ## JWS encoder

Translation of the JWS helper functions defined in
`acme/api/revoke_test.go` (`jwsHasher`, `jwkEncode`, `jwsHead`, `jwsSign`,
`jwsEncodeJSON`).  Public keys carry the mathematical content used by those
functions; the cryptographic hash and signature primitives are modelled
symbolically: a signature value records the signer public key and the
exact bytes that were signed, and verification succeeds exactly when the
recorded key and bytes match. -/

/-- Public part of an RSA or ECDSA key, the two key kinds the source
supports (`jwkEncode` and `jwsHasher` switch on exactly these). -/
inductive JwsPub where
  | rsa (n e : Nat)
  | ec (curveName : String) (x y : Nat)
deriving DecidableEq, Repr

/-- A signing key: the public parameters together with a private scalar. -/
inductive JwsKey where
  | rsa (n e d : Nat)
  | ec (curveName : String) (x y d : Nat)
deriving DecidableEq, Repr

/-- `key.Public()` of the source. -/
def JwsKey.publicKey : JwsKey → JwsPub
  | .rsa n e _ => .rsa n e
  | .ec c x y _ => .ec c x y

/-- Bit size of a named NIST curve (`Params().BitSize` in the source);
0 for names that `jwsHasher` does not recognise. -/
def curveBitSize (c : String) : Nat :=
  if c = "P-256" then 256
  else if c = "P-384" then 384
  else if c = "P-521" then 521
  else 0

/-- `jwsHasher` of the source: JWS algorithm name and hash bit width for a
public key, `none` for unsupported keys (the source returns `("", 0)`). -/
def jwsHasher : JwsPub → Option (String × Nat)
  | .rsa _ _ => some ("RS256", 256)
  | .ec c _ _ =>
    if c = "P-256" then some ("ES256", 256)
    else if c = "P-384" then some ("ES384", 384)
    else if c = "P-521" then some ("ES512", 512)
    else none

/-- ASCII codes of a string. -/
def strToBytes (s : String) : List Nat :=
  s.data.map Char.toNat

/-- String of the base64url encoding of a byte list, as
`base64.RawURLEncoding.EncodeToString`. -/
def b64urlString (bs : List Nat) : String :=
  String.mk ((b64urlEncode bs).map Char.ofNat)

/-- `jwkEncode` of the source: the JWK JSON of an RSA or ECDSA public key
with the field order mandated by RFC 7638 section 3.3 — for RSA
e, kty, n; for EC crv, kty, x, y with x and y left-padded with zeros to
the curve byte length.  The Go function can also fail on key types other
than RSA/ECDSA, which `JwsPub` cannot represent, so the model is total. -/
def jwkEncode : JwsPub → String
  | .rsa n e =>
    "\x7b\"e\":\"" ++ b64urlString (natBytes e) ++ "\",\"kty\":\"RSA\",\"n\":\""
      ++ b64urlString (natBytes n) ++ "\"\x7d"
  | .ec c x y =>
    let bits := curveBitSize c
    let n := bits / 8 + (if bits % 8 = 0 then 0 else 1)
    "\x7b\"crv\":\"" ++ c ++ "\",\"kty\":\"EC\",\"x\":\""
      ++ b64urlString (leftPad n (natBytes x)) ++ "\",\"y\":\""
      ++ b64urlString (leftPad n (natBytes y)) ++ "\"\x7d"

/-- `jwsHead` of the source: the protected JWS header, base64url-encoded.
The field order is alg, then exactly one of jwk (when `kid` is empty) or
kid, then nonce when non-empty, then url.  Inputs are assumed to contain
no characters needing JSON escaping, matching how the source is used. -/
def jwsHead (alg nonce u kid : String) (key : JwsKey) : List Nat :=
  let mid :=
    if kid = "" then ",\"jwk\":" ++ jwkEncode key.publicKey
    else ",\"kid\":\"" ++ kid ++ "\""
  let withNonce := if nonce = "" then "" else ",\"nonce\":\"" ++ nonce ++ "\""
  b64urlEncode (strToBytes
    ("\x7b\"alg\":\"" ++ alg ++ "\"" ++ mid ++ withNonce ++ ",\"url\":\"" ++ u ++ "\"\x7d"))

/-- `jwsSign` for ECDSA keys, on the mathematical values: the signature is
the fixed-width concatenation of R and S, each copied into the right end
of a zeroed buffer of `size` bytes where `size` is computed from the curve
bit size exactly as in the source (`size := BitSize / 8; if size % 8 > 0 { size++ }`). -/
def jwsSignECSize (bitSize : Nat) : Nat :=
  let size := bitSize / 8
  if size % 8 > 0 then size + 1 else size

/-- Byte content produced by the ECDSA branch of `jwsSign` for the values
`r` and `s` returned by `ecdsa.Sign` (the Go `copy` into a zeroed slice is
left padding whenever `r` and `s` fit, which the range of ECDSA values
guarantees). -/
def jwsSignEC (bitSize r s : Nat) : List Nat :=
  let size := jwsSignECSize bitSize
  leftPad size (natBytes r) ++ leftPad size (natBytes s)

/-- Symbolic signature value: the public key of the signer and the exact
bytes that were signed. -/
structure JwsSignature where
  signerPub : JwsPub
  signedInput : List Nat
deriving DecidableEq, Repr

/-- The flattened JWS object assembled by `jwsFinal` and re-parsed by
`jose.ParseJWS`: base64url protected header bytes, base64url payload
bytes, and the signature. -/
structure JWSObj where
  protectedB64 : List Nat
  payloadB64 : List Nat
  signature : JwsSignature
deriving DecidableEq, Repr

/-- `jwsEncodeJSON` of the source: negotiate the algorithm with
`jwsHasher` (unsupported keys fail), build the protected header with
`jwsHead`, base64url-encode the payload, and sign
`phead ++ "." ++ payload`.  The payload is the already-marshalled claim
set bytes (`json.Marshal` is outside the model), and signing is the
symbolic signature over the signing input. -/
def jwsEncodeJSON (claimset : List Nat) (key : JwsKey) (kid nonce u : String) :
    Except String JWSObj :=
  match jwsHasher key.publicKey with
  | none => .error "unknown key type; only RSA and ECDSA are supported"
  | some (alg, _sha) =>
    let phead := jwsHead alg nonce u kid key
    let payload := b64urlEncode claimset
    let payloadToSign := phead ++ [46] ++ payload
    .ok { protectedB64 := phead, payloadB64 := payload,
          signature := { signerPub := key.publicKey, signedInput := payloadToSign } }

/-- Modelled from the spec: the JWS verifier (`verify(jws, key)` of
section 4.A, implemented by the external go-jose `Verify` in the source)
recomputes the signing input `protected ++ "." ++ payload`, checks the
signature against the given public key, and returns the base64url-decoded
payload bytes on success. -/
def jwsVerify (jws : JWSObj) (pub : JwsPub) : Option (List Nat) :=
  let signingInput := jws.protectedB64 ++ [46] ++ jws.payloadB64
  if jws.signature.signerPub = pub ∧ jws.signature.signedInput = signingInput then
    b64urlDecode jws.payloadB64
  else none

/-! ## ACME error taxonomy

Modelled from the spec (sections 6 and 7): an ACME problem document
carries a `type` URN, a client-visible `detail`, an HTTP `status`, and an
internal cause (`Err` of `acme.Error`), surfaced only in logs.  The
expected values below are pinned by the expectations of
`TestHandler_RevokeCert` in `acme/api/revoke_test.go`. -/

structure AcmeError where
  type : String
  detail : String
  status : Nat
  inner : String
deriving DecidableEq, Repr

/-- Modelled from the spec: `serverInternal` error (`acme.NewErrorISE`). -/
def newErrorISE (msg : String) : AcmeError :=
  { type := "urn:ietf:params:acme:error:serverInternal"
    detail := "The server experienced an internal error"
    status := 500, inner := msg }

/-- Modelled from the spec: 400 `malformed` error. -/
def malformedErr (msg : String) : AcmeError :=
  { type := "urn:ietf:params:acme:error:malformed"
    detail := "The request message was malformed"
    status := 400, inner := msg }

/-- Modelled from the spec: 404 `malformed` error returned when the serial
has no stored certificate record (spec section 4.F step 4). -/
def certificateNotFoundErr : AcmeError :=
  { type := "urn:ietf:params:acme:error:malformed"
    detail := "The request message was malformed"
    status := 404, inner := "certificate not found" }

/-- Modelled from the spec: 400 `accountDoesNotExist` error used when the
kid path finds no account in the request context. -/
def accountDoesNotExistErr : AcmeError :=
  { type := "urn:ietf:params:acme:error:accountDoesNotExist"
    detail := "Account does not exist"
    status := 400, inner := "account not in context" }

/-- Modelled from the spec: `wrapUnauthorizedError` of the source — a 403
`unauthorized` error whose detail is exactly
`No authorization provided for name <cert.Subject>`, keeping the cause as
the internal message. -/
def wrapUnauthorizedError (subject msg : String) : AcmeError :=
  { type := "urn:ietf:params:acme:error:unauthorized"
    detail := "No authorization provided for name " ++ subject
    status := 403, inner := msg }

/-- Modelled from the spec: 400 `badRevocationReason` error returned by
`validateReasonCode` (detail pinned by `TestHandler_RevokeCert`
fail/invalid-reasoncode). -/
def badRevocationReasonErr : AcmeError :=
  { type := "urn:ietf:params:acme:error:badRevocationReason"
    detail := "The revocation reason provided is not allowed by the server"
    status := 400, inner := "reasonCode out of bounds" }

/-- Modelled from the spec: 400 `alreadyRevoked` error from the
`isRevoked` check (detail pinned by fail/certificate-already-revoked). -/
def alreadyRevokedErr : AcmeError :=
  { type := "urn:ietf:params:acme:error:alreadyRevoked"
    detail := "Certificate already revoked"
    status := 400, inner := "certificate already revoked" }

/-- Modelled from the spec: 400 `alreadyRevoked` error raised when the
authority commit loses a race; the authority message is surfaced
verbatim (spec section 7, propagation policy). -/
def alreadyRevokedWith (msg : String) : AcmeError :=
  { type := "urn:ietf:params:acme:error:alreadyRevoked"
    detail := msg
    status := 400, inner := msg }

/-! ## ACME revoke handler data model

The handler implementation (`acme/api/revoke.go`) is not under `src/`;
only its test is.  The definitions below are modelled from the spec
(sections 3, 4.E and 4.F), at the granularity the spec describes, and all
observable behaviour is pinned by `TestHandler_RevokeCert`,
`Test_validateReasonCode`, `Test_reason` and `Test_revokeOptions` in
`acme/api/revoke_test.go`.  External collaborators (JSON unmarshalling,
base64url decoding of the certificate field, X.509 parsing, signature
verification, database and authority) appear as the outcome they produce,
exactly as the tests mock them. -/

/-- An X.509 leaf certificate as the handler consumes it: subject string
(`cert.Subject.String()`), serial number, and public key (symbolic). -/
structure Cert where
  subject : String
  serialNumber : Nat
  publicKey : Nat
deriving DecidableEq, Repr

/-- `serial := certToBeRevoked.SerialNumber.String()` of the source:
decimal string of the serial. -/
def serialString (c : Cert) : String :=
  toString c.serialNumber

/-- An ACME account resolved from the request context. -/
structure Account where
  id : String
  status : String
deriving DecidableEq, Repr

/-- The stored certificate record (`acme.Certificate`) keyed by serial. -/
structure CertRecord where
  accountID : String
deriving DecidableEq, Repr

/-- The provisioner from the request context: its name and the outcome of
its `AuthorizeRevoke` hook. -/
structure AcmeProv where
  name : String
  authorizeRevokeFails : Bool
deriving DecidableEq, Repr

/-- The JWS envelope as the handler inspects it: whether a `jwk` is
embedded in the protected header (`canExtractJWKFrom`; otherwise the
header carries `kid`), and the key that actually signed it (symbolic,
compared against the leaf public key by `jws.Verify`). -/
structure HandlerJWS where
  hasEmbeddedJWK : Bool
  signerKey : Nat
deriving DecidableEq, Repr

/-- The `certificate` field of the revocation payload, by the outcome of
base64url-decoding and X.509-parsing it: `notBase64url` when
`base64.RawURLEncoding.DecodeString` fails (standard base64, etc.),
`badDer` when the decoded bytes fail `x509.ParseCertificate` (including
empty bytes), `parsed` otherwise. -/
inductive CertField where
  | notBase64url
  | badDer
  | parsed (cert : Cert)
deriving DecidableEq, Repr

/-- The revocation payload `{certificate, reasonCode?}`. -/
structure RevokePayload where
  certificate : CertField
  reasonCode : Option Int
deriving DecidableEq, Repr

/-- The payload slot of the request context: absent (or nil), present but
failing `json.Unmarshal`, or parsed. -/
inductive PayloadSlot where
  | absent
  | unparseable
  | parsed (p : RevokePayload)
deriving DecidableEq, Repr

/-- The request environment assembled by the upstream middleware: jws,
provisioner, payload, optional account, base URL.  A missing and a nil
context value behave identically in the source, so both are `none`. -/
structure RevokeCtx where
  jws : Option HandlerJWS
  prov : Option AcmeProv
  payload : PayloadSlot
  account : Option Account
  baseURL : String
deriving DecidableEq, Repr

/-- Outcome of `db.GetCertificateBySerial`. -/
inductive DbResult where
  | dbError
  | notFound
  | found (rec : CertRecord)
deriving DecidableEq, Repr

/-- Outcome of `ca.IsRevoked`. -/
inductive IsRevokedResult where
  | dbError
  | result (b : Bool)
deriving DecidableEq, Repr

/-- Outcome of the authority commit `ca.Revoke`: success, an
already-revoked conflict carrying the authority message, or any other
failure. -/
inductive CommitResult where
  | committed
  | alreadyRevoked (msg : String)
  | failed
deriving DecidableEq, Repr

/-- `authority.RevokeOptions`, shared by the ACME and SSH paths. -/
structure RevokeOptions where
  serial : String
  crt : Option Cert
  reasonCode : Int
  reason : String
  acme : Bool
  mTLS : Bool
  passiveOnly : Bool
  ott : String
deriving DecidableEq, Repr

/-- The storage and authority collaborators of the handler, as mocked by
`mockCA` and `acme.MockDB` in the tests. -/
structure AuthorityEnv where
  getCertificateBySerial : String → DbResult
  isRevoked : String → IsRevokedResult
  revoke : RevokeOptions → CommitResult

/-! ## ACME revoke handler operations -/

/-- Modelled from the spec: the reason-text table of section 4.F, with any
other code mapping to `unspecified reason`; pinned case by case by
`Test_reason`.  The codes 0..10 are the OCSP constants
`ocsp.Unspecified` .. `ocsp.AACompromise`. -/
def reason (reasonCode : Int) : String :=
  if reasonCode = 0 then "unspecified reason"
  else if reasonCode = 1 then "key compromised"
  else if reasonCode = 2 then "ca compromised"
  else if reasonCode = 3 then "affiliation changed"
  else if reasonCode = 4 then "superseded"
  else if reasonCode = 5 then "cessation of operation"
  else if reasonCode = 6 then "certificate hold"
  else if reasonCode = 8 then "remove from crl"
  else if reasonCode = 9 then "privilege withdrawn"
  else if reasonCode = 10 then "aa compromised"
  else "unspecified reason"

/-- Modelled from the spec: `validateReasonCode` — a present reason code
must lie in [0, 10] and differ from 7, otherwise a 400
`badRevocationReason` error; pinned by `Test_validateReasonCode`. -/
def validateReasonCode (reasonCode : Option Int) : Option AcmeError :=
  match reasonCode with
  | none => none
  | some rc =>
    if rc < 0 ∨ rc > 10 ∨ rc = 7 then some badRevocationReasonErr else none

/-- Modelled from the spec: `revokeOptions` — the `RevokeOptions` the
handler commits.  Serial, certificate and the ACME flag are always set;
the reason code and reason text are set only when the payload carried a
reason code (pinned by `Test_revokeOptions`: the no-reasoncode case
expects zero values for both). -/
def revokeOptions (serial : String) (certToBeRevoked : Cert)
    (reasonCode : Option Int) : RevokeOptions :=
  match reasonCode with
  | some rc =>
    { serial := serial, crt := some certToBeRevoked, acme := true
      reasonCode := rc, reason := reason rc
      mTLS := false, passiveOnly := false, ott := "" }
  | none =>
    { serial := serial, crt := some certToBeRevoked, acme := true
      reasonCode := 0, reason := ""
      mTLS := false, passiveOnly := false, ott := "" }

/-- HTTP response of the handler: the status code, the problem+json body
on failure (`none` means an empty body), and the `Link` header. -/
structure Response where
  statusCode : Nat
  problem : Option AcmeError
  link : Option String
deriving DecidableEq, Repr

/-- The handler outcome: the response together with the `RevokeOptions`
passed to the authority commit, when the commit was attempted. -/
structure Outcome where
  resp : Response
  committed : Option RevokeOptions
deriving DecidableEq, Repr

/-- Failure outcome: one problem+json document, no Link header, no
commit. -/
def errorOutcome (e : AcmeError) : Outcome :=
  { resp := { statusCode := e.status, problem := some e, link := none }
    committed := none }

/-- The `Link: <baseURL/acme/{prov}/directory>;rel="index"` header value of
the success response (the provisioner name is taken already
URL-escaped). -/
def indexLink (baseURL provName : String) : String :=
  "<" ++ baseURL ++ "/acme/" ++ provName ++ "/directory>;rel=\"index\""

/-- Modelled from the spec: step 5 of section 4.F — authenticate the
revoker.  When the JWS embeds a jwk, re-verify the signature with the
leaf certificate public key (`jws.Verify(certToBeRevoked.PublicKey)`);
otherwise resolve the account from the context (absent gives 400
`accountDoesNotExist`), require `status == valid` and ownership of the
certificate record (`isAccountAuthorized` of the source), any mismatch
giving the 403 unauthorized error.  Returns the error, `none` on
success. -/
def revokeAuthError (jws : HandlerJWS) (account : Option Account)
    (certToBeRevoked : Cert) (certificate : CertRecord) : Option AcmeError :=
  if jws.hasEmbeddedJWK then
    if jws.signerKey = certToBeRevoked.publicKey then none
    else
      some (wrapUnauthorizedError certToBeRevoked.subject
        "verification of jws using certificate public key failed")
  else
    match account with
    | none => some accountDoesNotExistErr
    | some account =>
      if account.status ≠ "valid" then
        some (wrapUnauthorizedError certToBeRevoked.subject "account is not valid")
      else if certificate.accountID = account.id then none
      else
        some (wrapUnauthorizedError certToBeRevoked.subject "account is not authorized")

/-- Modelled from the spec: the `RevokeOptions` the handler hands to the
authority — `revokeOptions(serial, certToBeRevoked, reasonCode)`, with
the mTLS flag set on the certificate-key path (section 4.F step 5). -/
def acmeRevokeOptions (jws : HandlerJWS) (certToBeRevoked : Cert)
    (p : RevokePayload) : RevokeOptions :=
  if jws.hasEmbeddedJWK then
    { revokeOptions (serialString certToBeRevoked) certToBeRevoked p.reasonCode with
        mTLS := true }
  else revokeOptions (serialString certToBeRevoked) certToBeRevoked p.reasonCode

/-- Modelled from the spec: the ACME `RevokeCert` handler, section 4.F
steps 1-10.  Context presence checks, payload parse, certificate decode,
record lookup by serial, authentication by account key (kid) or
certificate key (jwk), reason-code validation, already-revoked check,
provisioner authorization, and the authority commit.  Every observable
branch is pinned by a case of `TestHandler_RevokeCert`. -/
def RevokeCert (env : AuthorityEnv) (ctx : RevokeCtx) : Outcome :=
  match ctx.jws with
  | none => errorOutcome (newErrorISE "jws expected in request context")
  | some jws =>
    match ctx.prov with
    | none => errorOutcome (newErrorISE "provisioner does not exist")
    | some prov =>
      match ctx.payload with
      | .absent => errorOutcome (newErrorISE "payload does not exist")
      | .unparseable => errorOutcome (newErrorISE "error unmarshaling payload")
      | .parsed p =>
        match p.certificate with
        | .notBase64url =>
          errorOutcome (malformedErr "error base64url decoding payload certificate")
        | .badDer => errorOutcome (malformedErr "error parsing certificate")
        | .parsed certToBeRevoked =>
          match env.getCertificateBySerial (serialString certToBeRevoked) with
          | .dbError => errorOutcome (newErrorISE "error retrieving certificate by serial")
          | .notFound => errorOutcome certificateNotFoundErr
          | .found certificate =>
            match revokeAuthError jws ctx.account certToBeRevoked certificate with
            | some e => errorOutcome e
            | none =>
              match validateReasonCode p.reasonCode with
              | some e => errorOutcome e
              | none =>
                match env.isRevoked (serialString certToBeRevoked) with
                | .dbError => errorOutcome (newErrorISE "error retrieving revocation status")
                | .result true => errorOutcome alreadyRevokedErr
                | .result false =>
                  if prov.authorizeRevokeFails then
                    errorOutcome (newErrorISE "error authorizing revocation")
                  else
                    match env.revoke (acmeRevokeOptions jws certToBeRevoked p) with
                    | .committed =>
                      { resp := { statusCode := 200, problem := none
                                  link := some (indexLink ctx.baseURL prov.name) }
                        committed := some (acmeRevokeOptions jws certToBeRevoked p) }
                    | .alreadyRevoked msg =>
                      { resp := { statusCode := 400
                                  problem := some (alreadyRevokedWith msg), link := none }
                        committed := some (acmeRevokeOptions jws certToBeRevoked p) }
                    | .failed =>
                      { resp := { statusCode := 500
                                  problem := some (newErrorISE "error when revoking certificate")
                                  link := none }
                        committed := some (acmeRevokeOptions jws certToBeRevoked p) }

/-! ## SSH revocation request validation

Direct translation of `api/sshRevoke.go`. -/

/-- An error of the `errs` package as `SSHRevokeRequest.Validate` produces
it: `errs.BadRequest` carries HTTP 400, `errs.NotImplemented` 501. -/
inductive ErrsError where
  | badRequest (msg : String)
  | notImplemented (msg : String)
deriving DecidableEq, Repr

/-- HTTP status of an `errs` error. -/
def ErrsError.statusCode : ErrsError → Nat
  | .badRequest _ => 400
  | .notImplemented _ => 501

/-- `SSHRevokeRequest` of `api/sshRevoke.go`. -/
structure SSHRevokeRequest where
  serial : String
  ott : String
  reasonCode : Int
  reason : String
  passive : Bool
deriving DecidableEq, Repr

/-- `SSHRevokeRequest.Validate` of `api/sshRevoke.go`: the checks run in
order — serial, then the reason code bounds `ocsp.Unspecified = 0` ..
`ocsp.AACompromise = 10`, then passive, then ott — and the first failing
check determines the error; `none` means the request is valid. -/
def SSHRevokeRequest.Validate (r : SSHRevokeRequest) : Option ErrsError :=
  if r.serial = "" then some (.badRequest "missing serial")
  else if r.reasonCode < 0 ∨ r.reasonCode > 10 then
    some (.badRequest "reasonCode out of bounds")
  else if r.passive = false then
    some (.notImplemented "non-passive revocation not implemented")
  else if r.ott = "" then some (.badRequest "missing ott")
  else none

/-! ## Concrete fixtures used by witness and counterexample theorems -/

/-- Test certificate mirroring `generateCertKeyPair` of the test file. -/
def certW : Cert :=
  { subject := "CN=Test ACME Revoke Certificate", serialNumber := 1234, publicKey := 7 }

def recW : CertRecord := { accountID := "accountID" }

def accValidW : Account := { id := "accountID", status := "valid" }

def accInvalidW : Account := { id := "accountID", status := "invalid" }

def provW : AcmeProv := { name := "testprov", authorizeRevokeFails := false }

/-- JWS carrying a kid (no embedded jwk). -/
def jwsKidW : HandlerJWS := { hasEmbeddedJWK := false, signerKey := 99 }

/-- JWS carrying an embedded jwk, signed by the leaf key. -/
def jwsJwkGoodW : HandlerJWS := { hasEmbeddedJWK := true, signerKey := 7 }

/-- JWS carrying an embedded jwk, signed by an unrelated key. -/
def jwsJwkBadW : HandlerJWS := { hasEmbeddedJWK := true, signerKey := 8 }

/-- Store with the record for `certW`, nothing revoked, commits
succeeding. -/
def envW : AuthorityEnv :=
  { getCertificateBySerial := fun _ => .found recW
    isRevoked := fun _ => .result false
    revoke := fun _ => .committed }

/-- Store whose record binds the certificate to a different account. -/
def envOtherAccountW : AuthorityEnv :=
  { getCertificateBySerial := fun _ => .found { accountID := "differentAccountID" }
    isRevoked := fun _ => .result false
    revoke := fun _ => .committed }

def payloadW (rc : Option Int) : RevokePayload :=
  { certificate := .parsed certW, reasonCode := rc }

/-- Context on the account-key path with the given account and reason
code. -/
def ctxKidW (acc : Option Account) (rc : Option Int) : RevokeCtx :=
  { jws := some jwsKidW, prov := some provW, payload := .parsed (payloadW rc)
    account := acc, baseURL := "https://test.ca.smallstep.com" }

/-- Context on the certificate-key path with the given JWS. -/
def ctxJwkW (jws : HandlerJWS) (rc : Option Int) : RevokeCtx :=
  { jws := some jws, prov := some provW, payload := .parsed (payloadW rc)
    account := none, baseURL := "https://test.ca.smallstep.com" }

/-! ## Theorems -/

/-- Claim C9, amended: `SSHRevokeRequest.Validate` returns `nil` exactly
when serial is non-empty, the reason code lies in [0, 10], passive is
true and ott is non-empty; the first failing check in the order serial,
reasonCode, passive, ott determines the error — empty serial gives 400
missing serial; an out-of-bounds reason code (with serial present) gives
400; passive false (with serial present and reason code in bounds) gives
501 not implemented; empty ott (with everything earlier passing) gives
400 missing ott. -/
theorem sshRevoke_validate (r : SSHRevokeRequest) :
    (r.Validate = none ↔
      r.serial ≠ "" ∧ 0 ≤ r.reasonCode ∧ r.reasonCode ≤ 10 ∧
        r.passive = true ∧ r.ott ≠ "") ∧
    (r.serial = "" → r.Validate = some (.badRequest "missing serial")) ∧
    (r.serial ≠ "" → (r.reasonCode < 0 ∨ r.reasonCode > 10) →
      r.Validate = some (.badRequest "reasonCode out of bounds")) ∧
    (r.serial ≠ "" → 0 ≤ r.reasonCode → r.reasonCode ≤ 10 → r.passive = false →
      r.Validate = some (.notImplemented "non-passive revocation not implemented")) ∧
    (r.serial ≠ "" → 0 ≤ r.reasonCode → r.reasonCode ≤ 10 → r.passive = true →
      r.ott = "" → r.Validate = some (.badRequest "missing ott")) := by
  refine ⟨⟨?_, ?_⟩, ?_, ?_, ?_, ?_⟩
  · intro h
    simp only [SSHRevokeRequest.Validate] at h
    split_ifs at h with h1 h2 h3 h4
    exact ⟨h1, by omega, by omega, by simpa using h3, h4⟩
  · rintro ⟨h1, h2, h3, h4, h5⟩
    simp only [SSHRevokeRequest.Validate]
    rw [if_neg h1, if_neg (by omega), if_neg (by simp [h4]), if_neg h5]
  · intro h1
    simp only [SSHRevokeRequest.Validate]
    rw [if_pos h1]
  · intro h1 h2
    simp only [SSHRevokeRequest.Validate]
    rw [if_neg h1, if_pos h2]
  · intro h1 h2 h3 h4
    simp only [SSHRevokeRequest.Validate]
    rw [if_neg h1, if_neg (by omega), if_pos h4]
  · intro h1 h2 h3 h4 h5
    simp only [SSHRevokeRequest.Validate]
    rw [if_neg h1, if_neg (by omega), if_neg (by simp [h4]), if_pos h5]

/-- Witness for C9: a fully valid request validates to `nil`, and a
request with passive false (serial present, reason code in bounds) is
rejected 501. -/
theorem sshRevoke_validate_witness :
    SSHRevokeRequest.Validate
        { serial := "1234", ott := "token", reasonCode := 1, reason := "", passive := true }
      = none ∧
    SSHRevokeRequest.Validate
        { serial := "1234", ott := "token", reasonCode := 1, reason := "", passive := false }
      = some (.notImplemented "non-passive revocation not implemented") := by
  constructor
  · exact (sshRevoke_validate
      { serial := "1234", ott := "token", reasonCode := 1, reason := "", passive := true }).1.mpr
      ⟨by decide, by decide, by decide, rfl, by decide⟩
  · exact (sshRevoke_validate
      { serial := "1234", ott := "token", reasonCode := 1, reason := "", passive := false }).2.2.2.1
      (by decide) (by decide) (by decide) rfl

/-- Counterexample for C9 as stated: a request with missing ott (and
passive false) is not rejected with a 400 bad-request error — the checks
run in order, so the 501 non-passive error wins. -/
theorem sshRevoke_validate_counterexample :
    SSHRevokeRequest.Validate
        { serial := "1234", ott := "", reasonCode := 0, reason := "", passive := false }
      = some (.notImplemented "non-passive revocation not implemented") ∧
    (ErrsError.notImplemented "non-passive revocation not implemented").statusCode = 501 := by
  constructor
  · rfl
  · rfl

/-- Claim C10: `SSHRevokeRequest.Validate` checks serial, reasonCode,
passive, ott in that fixed order — a request with passive false and
empty ott (and the earlier checks passing) yields the 501 not-implemented
error; no request with passive false ever yields the 400 missing-ott
error; and an empty serial yields 400 missing serial regardless of all
other fields. -/
theorem sshRevoke_check_order (r : SSHRevokeRequest) :
    (r.serial ≠ "" → 0 ≤ r.reasonCode → r.reasonCode ≤ 10 → r.passive = false →
      r.ott = "" →
      r.Validate = some (.notImplemented "non-passive revocation not implemented")) ∧
    (r.passive = false → r.Validate ≠ some (.badRequest "missing ott")) ∧
    (r.serial = "" → r.Validate = some (.badRequest "missing serial")) := by
  refine ⟨?_, ?_, ?_⟩
  · intro h1 h2 h3 h4 _h5
    simp only [SSHRevokeRequest.Validate]
    rw [if_neg h1, if_neg (by omega), if_pos h4]
  · intro hp
    simp only [SSHRevokeRequest.Validate]
    split_ifs with h1 h2
    all_goals decide
  · intro h1
    simp only [SSHRevokeRequest.Validate]
    rw [if_pos h1]

theorem natBytes_length_le_of_lt_two_pow (b n : Nat) (h : n < 2 ^ b) :
    (natBytes n).length ≤ (b + 7) / 8 := by
  apply natBytes_length_le
  calc n < 2 ^ b := h
    _ ≤ 2 ^ (8 * ((b + 7) / 8)) := Nat.pow_le_pow_right (by norm_num) (by omega)
    _ = 256 ^ ((b + 7) / 8) := by rw [pow_mul]; norm_num

/-- Claim C5: for every payload, every supported signing key, and every
kid, nonce and url, verifying the JWS produced by `jwsEncodeJSON` with
the public part of the key succeeds and returns exactly the payload. -/
theorem jws_encode_verify_roundtrip (p : List Nat) (hp : ∀ b ∈ p, b < 256)
    (key : JwsKey) (alg : String) (sha : Nat)
    (hk : jwsHasher key.publicKey = some (alg, sha)) (kid nonce u : String) :
    (jwsEncodeJSON p key kid nonce u).map
        (fun jws => jwsVerify jws key.publicKey) = .ok (some p) := by
  unfold jwsEncodeJSON
  rw [hk]
  simp only [Except.map]
  simp only [jwsVerify]
  rw [if_pos ⟨trivial, trivial⟩]
  rw [b64url_roundtrip p hp]

/-- Witness for C5: the round trip at a concrete payload and P-256 key,
on both the kid and the jwk form of the header. -/
theorem jws_encode_verify_roundtrip_witness :
    (∀ b ∈ [104, 101, 108, 108, 111], b < 256) ∧
    jwsHasher (JwsKey.publicKey (.ec "P-256" 11 22 33)) = some ("ES256", 256) ∧
    (jwsEncodeJSON [104, 101, 108, 108, 111] (.ec "P-256" 11 22 33) "kid1" "nonce"
        "https://ca.smallstep.com/acme/prov/revoke-cert").map
      (fun jws => jwsVerify jws (JwsKey.publicKey (.ec "P-256" 11 22 33)))
      = .ok (some [104, 101, 108, 108, 111]) ∧
    (jwsEncodeJSON [1, 2, 3] (.rsa 3233 17 413) "" "" "url").map
      (fun jws => jwsVerify jws (JwsKey.publicKey (.rsa 3233 17 413)))
      = .ok (some [1, 2, 3]) := by
  refine ⟨by decide, rfl, ?_, ?_⟩
  · exact jws_encode_verify_roundtrip [104, 101, 108, 108, 111] (by decide)
      (.ec "P-256" 11 22 33) "ES256" 256 rfl "kid1" "nonce"
      "https://ca.smallstep.com/acme/prov/revoke-cert"
  · exact jws_encode_verify_roundtrip [1, 2, 3] (by decide)
      (.rsa 3233 17 413) "RS256" 256 rfl "" "" "url"

/-- Claim C6: for every ECDSA key of a supported bit size b (the encoder
signs only with P-256, P-384 or P-521), the signature bytes produced by
`jwsSign` are the concatenation of R and S, each left-padded with zero
bytes to exactly ceil(b/8) bytes, for a total length of exactly
2 * ceil(b/8). -/
theorem jwsSign_ecdsa_fixed_width (b r s : Nat)
    (hb : b = 256 ∨ b = 384 ∨ b = 521) (hr : r < 2 ^ b) (hs : s < 2 ^ b) :
    jwsSignECSize b = (b + 7) / 8 ∧
    (leftPad ((b + 7) / 8) (natBytes r)).length = (b + 7) / 8 ∧
    (leftPad ((b + 7) / 8) (natBytes s)).length = (b + 7) / 8 ∧
    jwsSignEC b r s =
      (List.replicate ((b + 7) / 8 - (natBytes r).length) 0 ++ natBytes r) ++
        (List.replicate ((b + 7) / 8 - (natBytes s).length) 0 ++ natBytes s) ∧
    (jwsSignEC b r s).length = 2 * ((b + 7) / 8) := by
  have hszr := natBytes_length_le_of_lt_two_pow b r hr
  have hszs := natBytes_length_le_of_lt_two_pow b s hs
  have hsize : jwsSignECSize b = (b + 7) / 8 := by
    rcases hb with hb | hb | hb <;> subst hb <;> rfl
  refine ⟨hsize, leftPad_length _ _ hszr, leftPad_length _ _ hszs, ?_, ?_⟩
  · simp only [jwsSignEC, hsize, leftPad]
  · simp only [jwsSignEC, hsize, List.length_append]
    rw [leftPad_length _ _ hszr, leftPad_length _ _ hszs]
    omega

/-- Witness for C6 at P-521 (the one supported bit size that is not a
multiple of 8) and small R, S. -/
theorem jwsSign_ecdsa_fixed_width_witness :
    (1 < 2 ^ 521 ∧ 2 < 2 ^ 521) ∧
    jwsSignECSize 521 = (521 + 7) / 8 ∧
    (jwsSignEC 521 1 2).length = 2 * ((521 + 7) / 8) := by
  refine ⟨⟨by norm_num, by norm_num⟩, ?_, ?_⟩
  · exact (jwsSign_ecdsa_fixed_width 521 1 2 (by tauto) (by norm_num) (by norm_num)).1
  · exact (jwsSign_ecdsa_fixed_width 521 1 2 (by tauto) (by norm_num) (by norm_num)).2.2.2.2

/-- Claim C7: `jwkEncode` emits canonical JSON with the field order of
RFC 7638 — crv, kty, x, y for EC keys with x and y left-padded to the
curve byte length, and e, kty, n for RSA keys — all values base64url
without padding, so the encoding depends only on the logical key values
and any two presentations of the same key give byte-identical output. -/
theorem jwkEncode_canonical (name : String) (x y : Nat)
    (hname : name = "P-256" ∨ name = "P-384" ∨ name = "P-521")
    (hx : x < 2 ^ curveBitSize name) (hy : y < 2 ^ curveBitSize name) :
    jwkEncode (.ec name x y) =
      "\x7b\"crv\":\"" ++ name ++ "\",\"kty\":\"EC\",\"x\":\""
        ++ b64urlString (leftPad ((curveBitSize name + 7) / 8) (natBytes x))
        ++ "\",\"y\":\""
        ++ b64urlString (leftPad ((curveBitSize name + 7) / 8) (natBytes y))
        ++ "\"\x7d" ∧
    (leftPad ((curveBitSize name + 7) / 8) (natBytes x)).length
      = (curveBitSize name + 7) / 8 ∧
    (leftPad ((curveBitSize name + 7) / 8) (natBytes y)).length
      = (curveBitSize name + 7) / 8 ∧
    (∀ xb yb : List Nat, bytesToNat xb = x → bytesToNat yb = y →
      jwkEncode (.ec name (bytesToNat xb) (bytesToNat yb)) = jwkEncode (.ec name x y)) ∧
    (∀ n e : Nat, jwkEncode (.rsa n e) =
      "\x7b\"e\":\"" ++ b64urlString (natBytes e) ++ "\",\"kty\":\"RSA\",\"n\":\""
        ++ b64urlString (natBytes n) ++ "\"\x7d") := by
  refine ⟨?_, leftPad_length _ _ (natBytes_length_le_of_lt_two_pow _ _ hx),
    leftPad_length _ _ (natBytes_length_le_of_lt_two_pow _ _ hy),
    fun xb yb hxb hyb => by rw [hxb, hyb], fun n e => rfl⟩
  rcases hname with h | h | h <;> subst h <;> rfl

/-- Witness for C7 at a P-256 key with small coordinates, including two
byte presentations (with and without leading zeros) of the same x. -/
theorem jwkEncode_canonical_witness :
    ((1 : Nat) < 2 ^ curveBitSize "P-256" ∧ (2 : Nat) < 2 ^ curveBitSize "P-256") ∧
    jwkEncode (.ec "P-256" 1 2) =
      "\x7b\"crv\":\"" ++ "P-256" ++ "\",\"kty\":\"EC\",\"x\":\""
        ++ b64urlString (leftPad ((curveBitSize "P-256" + 7) / 8) (natBytes 1))
        ++ "\",\"y\":\""
        ++ b64urlString (leftPad ((curveBitSize "P-256" + 7) / 8) (natBytes 2))
        ++ "\"\x7d" ∧
    (leftPad ((curveBitSize "P-256" + 7) / 8) (natBytes 1)).length
      = (curveBitSize "P-256" + 7) / 8 ∧
    jwkEncode (.ec "P-256" (bytesToNat [0, 0, 1]) (bytesToNat [2]))
      = jwkEncode (.ec "P-256" 1 2) := by
  refine ⟨⟨by norm_num [curveBitSize], by norm_num [curveBitSize]⟩, ?_, ?_, ?_⟩
  · exact (jwkEncode_canonical "P-256" 1 2 (by tauto)
      (by norm_num [curveBitSize]) (by norm_num [curveBitSize])).1
  · exact (jwkEncode_canonical "P-256" 1 2 (by tauto)
      (by norm_num [curveBitSize]) (by norm_num [curveBitSize])).2.1
  · exact (jwkEncode_canonical "P-256" 1 2 (by tauto)
      (by norm_num [curveBitSize]) (by norm_num [curveBitSize])).2.2.2.1
      [0, 0, 1] [2] (by decide) (by decide)

/-- Any error produced by the authentication step has HTTP status 400 or
403 — shared helper. -/
theorem revokeAuthError_status (jws : HandlerJWS) (account : Option Account)
    (cert : Cert) (rec : CertRecord) (e : AcmeError)
    (h : revokeAuthError jws account cert rec = some e) :
    e.status = 400 ∨ e.status = 403 := by
  cases account with
  | none =>
    simp only [revokeAuthError, wrapUnauthorizedError, accountDoesNotExistErr] at h
    split_ifs at h <;>
      (simp only [Option.some.injEq] at h; subst h; simp)
  | some acc =>
    simp only [revokeAuthError, wrapUnauthorizedError, accountDoesNotExistErr] at h
    split_ifs at h <;>
      (simp only [Option.some.injEq] at h; subst h; simp)

/-- The only error `validateReasonCode` produces is the 400
badRevocationReason error — shared helper. -/
theorem validateReasonCode_some (rc : Option Int) (e : AcmeError)
    (h : validateReasonCode rc = some e) : e = badRevocationReasonErr := by
  cases rc with
  | none => simp [validateReasonCode] at h
  | some v =>
    simp only [validateReasonCode] at h
    split_ifs at h <;> simp_all

/-- When the request reaches the authentication step and it fails, the
handler returns exactly that error — shared helper. -/
theorem RevokeCert_auth_error (env : AuthorityEnv) (ctx : RevokeCtx)
    (jws : HandlerJWS) (prov : AcmeProv) (p : RevokePayload) (cert : Cert)
    (rec : CertRecord) (e : AcmeError)
    (hjws : ctx.jws = some jws) (hprov : ctx.prov = some prov)
    (hpay : ctx.payload = .parsed p) (hcert : p.certificate = .parsed cert)
    (hdb : env.getCertificateBySerial (serialString cert) = .found rec)
    (hauth : revokeAuthError jws ctx.account cert rec = some e) :
    RevokeCert env ctx = errorOutcome e := by
  unfold RevokeCert
  simp only [hjws, hprov, hpay, hcert, hdb, hauth]

/-- When authentication succeeds and the reason code is invalid, the
handler returns the validation error — shared helper. -/
theorem RevokeCert_validation_error (env : AuthorityEnv) (ctx : RevokeCtx)
    (jws : HandlerJWS) (prov : AcmeProv) (p : RevokePayload) (cert : Cert)
    (rec : CertRecord) (e : AcmeError)
    (hjws : ctx.jws = some jws) (hprov : ctx.prov = some prov)
    (hpay : ctx.payload = .parsed p) (hcert : p.certificate = .parsed cert)
    (hdb : env.getCertificateBySerial (serialString cert) = .found rec)
    (hauth : revokeAuthError jws ctx.account cert rec = none)
    (hval : validateReasonCode p.reasonCode = some e) :
    RevokeCert env ctx = errorOutcome e := by
  unfold RevokeCert
  simp only [hjws, hprov, hpay, hcert, hdb, hauth, hval]

/-- When every check passes and the commit succeeds, the handler returns
the 200 response with the Link header and records the committed
options — shared helper. -/
theorem RevokeCert_success (env : AuthorityEnv) (ctx : RevokeCtx)
    (jws : HandlerJWS) (prov : AcmeProv) (p : RevokePayload) (cert : Cert)
    (rec : CertRecord)
    (hjws : ctx.jws = some jws) (hprov : ctx.prov = some prov)
    (hpay : ctx.payload = .parsed p) (hcert : p.certificate = .parsed cert)
    (hdb : env.getCertificateBySerial (serialString cert) = .found rec)
    (hauth : revokeAuthError jws ctx.account cert rec = none)
    (hval : validateReasonCode p.reasonCode = none)
    (hrev : env.isRevoked (serialString cert) = .result false)
    (hhook : prov.authorizeRevokeFails = false)
    (hcommit : env.revoke (acmeRevokeOptions jws cert p) = .committed) :
    RevokeCert env ctx =
      { resp := { statusCode := 200, problem := none
                  link := some (indexLink ctx.baseURL prov.name) }
        committed := some (acmeRevokeOptions jws cert p) } := by
  unfold RevokeCert
  simp only [hjws, hprov, hpay, hcert, hdb, hauth, hval, hrev, hhook, hcommit]
  simp

/-- Every response of the handler either is the 200 success with no
problem document, or carries a problem document and a non-200 status —
shared helper for the response-framing claim. -/
theorem RevokeCert_problem_iff (env : AuthorityEnv) (ctx : RevokeCtx) :
    (RevokeCert env ctx).resp.statusCode = 200
      ↔ (RevokeCert env ctx).resp.problem = none := by
  unfold RevokeCert
  repeat' split
  all_goals first
    | (simp [errorOutcome, newErrorISE, malformedErr, certificateNotFoundErr,
         alreadyRevokedErr, alreadyRevokedWith]
       done)
    | (rename_i e heq
       first
         | (have hst := revokeAuthError_status _ _ _ _ e heq
            simp [errorOutcome]
            omega)
         | (have hbe := validateReasonCode_some _ e heq
            subst hbe
            simp [errorOutcome, badRevocationReasonErr]))

/-- Claim C2: on the account-key path, an account that is not valid or
does not own the certificate record gives a 403 `unauthorized` response
whose detail is exactly `No authorization provided for name
<cert.Subject>`; on the certificate-key path, a JWS whose signature does
not verify against the leaf public key gives the same 403 response, with
the inner cause `verification of jws using certificate public key
failed`. -/
theorem revokeCert_unauthorized (env : AuthorityEnv) (ctx : RevokeCtx)
    (jws : HandlerJWS) (prov : AcmeProv) (p : RevokePayload) (cert : Cert)
    (rec : CertRecord)
    (hjws : ctx.jws = some jws) (hprov : ctx.prov = some prov)
    (hpay : ctx.payload = .parsed p) (hcert : p.certificate = .parsed cert)
    (hdb : env.getCertificateBySerial (serialString cert) = .found rec) :
    (∀ acc, jws.hasEmbeddedJWK = false → ctx.account = some acc →
      (acc.status ≠ "valid" ∨ rec.accountID ≠ acc.id) →
      (RevokeCert env ctx).resp.statusCode = 403 ∧
      ((RevokeCert env ctx).resp.problem.map AcmeError.type)
        = some "urn:ietf:params:acme:error:unauthorized" ∧
      ((RevokeCert env ctx).resp.problem.map AcmeError.detail)
        = some ("No authorization provided for name " ++ cert.subject)) ∧
    (jws.hasEmbeddedJWK = true → jws.signerKey ≠ cert.publicKey →
      RevokeCert env ctx = errorOutcome (wrapUnauthorizedError cert.subject
        "verification of jws using certificate public key failed")) := by
  constructor
  · intro acc hkid hacc hbad
    have hauth : ∃ msg, revokeAuthError jws ctx.account cert rec
        = some (wrapUnauthorizedError cert.subject msg) := by
      rw [hacc]
      unfold revokeAuthError
      rw [if_neg (by simp [hkid])]
      by_cases hst : acc.status = "valid"
      · rcases hbad with hb | hb
        · exact absurd hst hb
        · exact ⟨"account is not authorized", by simp [hst, hb]⟩
      · exact ⟨"account is not valid", by simp [hst]⟩
    rcases hauth with ⟨msg, hauth⟩
    rw [RevokeCert_auth_error env ctx jws prov p cert rec _
      hjws hprov hpay hcert hdb hauth]
    exact ⟨rfl, rfl, rfl⟩
  · intro hkid hsig
    have hauth : revokeAuthError jws ctx.account cert rec
        = some (wrapUnauthorizedError cert.subject
          "verification of jws using certificate public key failed") := by
      unfold revokeAuthError
      rw [if_pos hkid, if_neg hsig]
    exact RevokeCert_auth_error env ctx jws prov p cert rec _
      hjws hprov hpay hcert hdb hauth

/-- Witness for C2: concrete 403 responses on the invalid-account,
cross-account and bad-certificate-key requests. -/
theorem revokeCert_unauthorized_witness :
    ((RevokeCert envW (ctxKidW (some accInvalidW) none)).resp.statusCode = 403 ∧
      ((RevokeCert envW (ctxKidW (some accInvalidW) none)).resp.problem.map AcmeError.detail)
        = some ("No authorization provided for name " ++ certW.subject)) ∧
    (RevokeCert envOtherAccountW (ctxKidW (some accValidW) none)).resp.statusCode = 403 ∧
    RevokeCert envW (ctxJwkW jwsJwkBadW (some 1)) =
      errorOutcome (wrapUnauthorizedError certW.subject
        "verification of jws using certificate public key failed") := by
  refine ⟨⟨?_, ?_⟩, ?_, ?_⟩
  · exact ((revokeCert_unauthorized envW (ctxKidW (some accInvalidW) none)
      jwsKidW provW (payloadW none) certW recW rfl rfl rfl rfl rfl).1
      accInvalidW rfl rfl (Or.inl (by decide))).1
  · exact ((revokeCert_unauthorized envW (ctxKidW (some accInvalidW) none)
      jwsKidW provW (payloadW none) certW recW rfl rfl rfl rfl rfl).1
      accInvalidW rfl rfl (Or.inl (by decide))).2.2
  · exact ((revokeCert_unauthorized envOtherAccountW (ctxKidW (some accValidW) none)
      jwsKidW provW (payloadW none) certW { accountID := "differentAccountID" }
      rfl rfl rfl rfl rfl).1
      accValidW rfl rfl (Or.inr (by decide))).1
  · exact (revokeCert_unauthorized envW (ctxJwkW jwsJwkBadW (some 1))
      jwsJwkBadW provW (payloadW (some 1)) certW recW rfl rfl rfl rfl rfl).2
      rfl (by decide)

/-- Claim C3: on the account-key path with no account (or a nil account)
in the request context the handler responds 400 `accountDoesNotExist`,
not 403 `unauthorized`. -/
theorem revokeCert_no_account (env : AuthorityEnv) (ctx : RevokeCtx)
    (jws : HandlerJWS) (prov : AcmeProv) (p : RevokePayload) (cert : Cert)
    (rec : CertRecord)
    (hjws : ctx.jws = some jws) (hprov : ctx.prov = some prov)
    (hpay : ctx.payload = .parsed p) (hcert : p.certificate = .parsed cert)
    (hdb : env.getCertificateBySerial (serialString cert) = .found rec)
    (hkid : jws.hasEmbeddedJWK = false) (hacc : ctx.account = none) :
    RevokeCert env ctx = errorOutcome accountDoesNotExistErr ∧
    (RevokeCert env ctx).resp.statusCode = 400 ∧
    ((RevokeCert env ctx).resp.problem.map AcmeError.type)
      = some "urn:ietf:params:acme:error:accountDoesNotExist" ∧
    (RevokeCert env ctx).resp.statusCode ≠ 403 := by
  have hauth : revokeAuthError jws ctx.account cert rec
      = some accountDoesNotExistErr := by
    rw [hacc]
    unfold revokeAuthError
    rw [if_neg (by simp [hkid])]
  have hmain := RevokeCert_auth_error env ctx jws prov p cert rec _
    hjws hprov hpay hcert hdb hauth
  rw [hmain]
  exact ⟨rfl, rfl, rfl, by decide⟩

/-- Witness for C3: the no-account request gets the 400
accountDoesNotExist response. -/
theorem revokeCert_no_account_witness :
    RevokeCert envW (ctxKidW none none) = errorOutcome accountDoesNotExistErr ∧
    (RevokeCert envW (ctxKidW none none)).resp.statusCode = 400 := by
  constructor
  · exact (revokeCert_no_account envW (ctxKidW none none) jwsKidW provW
      (payloadW none) certW recW rfl rfl rfl rfl rfl rfl rfl).1
  · exact (revokeCert_no_account envW (ctxKidW none none) jwsKidW provW
      (payloadW none) certW recW rfl rfl rfl rfl rfl rfl rfl).2.1

/-- Claim C4: a present reason code passes validation exactly when it
lies in [0, 10] and differs from 7; otherwise the handler responds 400
`badRevocationReason` with detail `The revocation reason provided is not
allowed by the server`. -/
theorem revokeCert_reason_code_validation (env : AuthorityEnv) (ctx : RevokeCtx)
    (jws : HandlerJWS) (prov : AcmeProv) (p : RevokePayload) (cert : Cert)
    (rec : CertRecord)
    (hjws : ctx.jws = some jws) (hprov : ctx.prov = some prov)
    (hpay : ctx.payload = .parsed p) (hcert : p.certificate = .parsed cert)
    (hdb : env.getCertificateBySerial (serialString cert) = .found rec)
    (hauth : revokeAuthError jws ctx.account cert rec = none) :
    (∀ rc : Int, validateReasonCode (some rc) = none ↔
      0 ≤ rc ∧ rc ≤ 10 ∧ rc ≠ 7) ∧
    (∀ rc : Int, p.reasonCode = some rc → (rc < 0 ∨ rc > 10 ∨ rc = 7) →
      RevokeCert env ctx = errorOutcome badRevocationReasonErr ∧
      badRevocationReasonErr.status = 400 ∧
      badRevocationReasonErr.detail
        = "The revocation reason provided is not allowed by the server") := by
  constructor
  · intro rc
    constructor
    · intro hnone
      simp only [validateReasonCode] at hnone
      split_ifs at hnone with hcond
      omega
    · intro hc
      simp only [validateReasonCode]
      rw [if_neg (by omega)]
  · intro rc hrc hbad
    have hval : validateReasonCode p.reasonCode = some badRevocationReasonErr := by
      rw [hrc]
      simp only [validateReasonCode]
      rw [if_pos hbad]
    exact ⟨RevokeCert_validation_error env ctx jws prov p cert rec _
      hjws hprov hpay hcert hdb hauth hval, rfl, rfl⟩

/-- Witness for C4: code 1 accepted, code 7 rejected with the 400
response at a concrete request. -/
theorem revokeCert_reason_code_validation_witness :
    (validateReasonCode (some 1) = none ↔ 0 ≤ (1 : Int) ∧ (1 : Int) ≤ 10 ∧ (1 : Int) ≠ 7) ∧
    (RevokeCert envW (ctxKidW (some accValidW) (some 7))
      = errorOutcome badRevocationReasonErr) := by
  constructor
  · exact (revokeCert_reason_code_validation envW (ctxKidW (some accValidW) (some 7))
      jwsKidW provW (payloadW (some 7)) certW recW rfl rfl rfl rfl rfl rfl).1 1
  · exact ((revokeCert_reason_code_validation envW (ctxKidW (some accValidW) (some 7))
      jwsKidW provW (payloadW (some 7)) certW recW rfl rfl rfl rfl rfl rfl).2 7
      rfl (by omega)).1

/-- Claim C1, amended: the committed `RevokeOptions` carries the
reason-text table lookup of the reason code when the payload carries one
(unknown codes map to `unspecified reason` inside the table), but when
the payload omits the reason code the committed reason is the empty
string and the reason code 0 — not the string `unspecified reason`. -/
theorem acmeRevoke_committed_reason (env : AuthorityEnv) (ctx : RevokeCtx)
    (jws : HandlerJWS) (prov : AcmeProv) (p : RevokePayload) (cert : Cert)
    (rec : CertRecord)
    (hjws : ctx.jws = some jws) (hprov : ctx.prov = some prov)
    (hpay : ctx.payload = .parsed p) (hcert : p.certificate = .parsed cert)
    (hdb : env.getCertificateBySerial (serialString cert) = .found rec)
    (hauth : revokeAuthError jws ctx.account cert rec = none)
    (hval : validateReasonCode p.reasonCode = none)
    (hrev : env.isRevoked (serialString cert) = .result false)
    (hhook : prov.authorizeRevokeFails = false)
    (hcommit : env.revoke (acmeRevokeOptions jws cert p) = .committed) :
    (∀ (s : String) (c : Cert) (rc : Int),
      (revokeOptions s c (some rc)).reason = reason rc ∧
      (revokeOptions s c (some rc)).reasonCode = rc ∧
      (revokeOptions s c none).reason = "" ∧
      (revokeOptions s c none).reasonCode = 0) ∧
    (RevokeCert env ctx).resp.statusCode = 200 ∧
    ((RevokeCert env ctx).committed.map RevokeOptions.reason)
      = some (match p.reasonCode with | some rc => reason rc | none => "") ∧
    ((RevokeCert env ctx).committed.map RevokeOptions.reasonCode)
      = some (p.reasonCode.getD 0) := by
  have hmain := RevokeCert_success env ctx jws prov p cert rec
    hjws hprov hpay hcert hdb hauth hval hrev hhook hcommit
  have hopts : (acmeRevokeOptions jws cert p).reason
        = (match p.reasonCode with | some rc => reason rc | none => "") ∧
      (acmeRevokeOptions jws cert p).reasonCode = p.reasonCode.getD 0 := by
    unfold acmeRevokeOptions revokeOptions
    cases p.reasonCode <;> cases hjwk : jws.hasEmbeddedJWK <;> simp [Option.getD]
  refine ⟨fun s c rc => ⟨rfl, rfl, rfl, rfl⟩, ?_, ?_, ?_⟩
  · rw [hmain]
  · rw [hmain]
    simpa using hopts.1
  · rw [hmain]
    simpa using hopts.2

/-- Witness for C1 (amended): the account-key success with reason code 1
commits reason `key compromised`. -/
theorem acmeRevoke_committed_reason_witness :
    (RevokeCert envW (ctxKidW (some accValidW) (some 1))).resp.statusCode = 200 ∧
    ((RevokeCert envW (ctxKidW (some accValidW) (some 1))).committed.map
        RevokeOptions.reason)
      = some (match some (1 : Int) with | some rc => reason rc | none => "") := by
  constructor
  · exact (acmeRevoke_committed_reason envW (ctxKidW (some accValidW) (some 1))
      jwsKidW provW (payloadW (some 1)) certW recW
      rfl rfl rfl rfl rfl rfl rfl rfl rfl rfl).2.1
  · exact (acmeRevoke_committed_reason envW (ctxKidW (some accValidW) (some 1))
      jwsKidW provW (payloadW (some 1)) certW recW
      rfl rfl rfl rfl rfl rfl rfl rfl rfl rfl).2.2.1

/-- Counterexample for C1 as stated: a successful revocation whose
payload omits the reason code commits the empty reason string, not
`unspecified reason` (pinned by the ok/no-reasoncode case of
`Test_revokeOptions`). -/
theorem acmeRevoke_committed_reason_counterexample :
    (RevokeCert envW (ctxKidW (some accValidW) none)).resp.statusCode = 200 ∧
    ((RevokeCert envW (ctxKidW (some accValidW) none)).committed.map
        RevokeOptions.reason) = some "" ∧
    ((RevokeCert envW (ctxKidW (some accValidW) none)).committed.map
        RevokeOptions.reason) ≠ some "unspecified reason" := by
  refine ⟨?_, ?_, ?_⟩ <;> decide

/-- Claim C8: a request passing all checks (on either authentication
path) gets HTTP 200 with an empty body and the
`Link: <baseURL/acme/{prov}/directory>;rel="index"` header, and every
failure carries exactly one problem document: the status is 200 exactly
when the response body is empty. -/
theorem revokeCert_success_response (env : AuthorityEnv) (ctx : RevokeCtx)
    (jws : HandlerJWS) (prov : AcmeProv) (p : RevokePayload) (cert : Cert)
    (rec : CertRecord)
    (hjws : ctx.jws = some jws) (hprov : ctx.prov = some prov)
    (hpay : ctx.payload = .parsed p) (hcert : p.certificate = .parsed cert)
    (hdb : env.getCertificateBySerial (serialString cert) = .found rec)
    (hauth : revokeAuthError jws ctx.account cert rec = none)
    (hval : validateReasonCode p.reasonCode = none)
    (hrev : env.isRevoked (serialString cert) = .result false)
    (hhook : prov.authorizeRevokeFails = false)
    (hcommit : env.revoke (acmeRevokeOptions jws cert p) = .committed) :
    (RevokeCert env ctx).resp
      = { statusCode := 200, problem := none
          link := some (indexLink ctx.baseURL prov.name) } ∧
    (∀ env2 ctx2, (RevokeCert env2 ctx2).resp.statusCode = 200
      ↔ (RevokeCert env2 ctx2).resp.problem = none) := by
  constructor
  · rw [RevokeCert_success env ctx jws prov p cert rec
      hjws hprov hpay hcert hdb hauth hval hrev hhook hcommit]
  · exact RevokeCert_problem_iff

/-- Witness for C8: concrete 200 success on the account-key path and on
the certificate-key path, with the Link header value. -/
theorem revokeCert_success_response_witness :
    (RevokeCert envW (ctxKidW (some accValidW) none)).resp
      = { statusCode := 200, problem := none
          link := some (indexLink "https://test.ca.smallstep.com" "testprov") } ∧
    (RevokeCert envW (ctxJwkW jwsJwkGoodW (some 1))).resp
      = { statusCode := 200, problem := none
          link := some (indexLink "https://test.ca.smallstep.com" "testprov") } := by
  constructor
  · exact (revokeCert_success_response envW (ctxKidW (some accValidW) none)
      jwsKidW provW (payloadW none) certW recW
      rfl rfl rfl rfl rfl rfl rfl rfl rfl rfl).1
  · exact (revokeCert_success_response envW (ctxJwkW jwsJwkGoodW (some 1))
      jwsJwkGoodW provW (payloadW (some 1)) certW recW
      rfl rfl rfl rfl rfl (by decide) rfl rfl rfl rfl).1

/-- Witness for C10: the 501-over-400 precedence and the missing-serial
dominance at concrete requests. -/
theorem sshRevoke_check_order_witness :
    SSHRevokeRequest.Validate
        { serial := "abc", ott := "", reasonCode := 3, reason := "", passive := false }
      = some (.notImplemented "non-passive revocation not implemented") ∧
    SSHRevokeRequest.Validate
        { serial := "", ott := "", reasonCode := 99, reason := "", passive := false }
      = some (.badRequest "missing serial") := by
  constructor
  · exact (sshRevoke_check_order
      { serial := "abc", ott := "", reasonCode := 3, reason := "", passive := false }).1
      (by decide) (by decide) (by decide) rfl rfl
  · exact (sshRevoke_check_order
      { serial := "", ott := "", reasonCode := 99, reason := "", passive := false }).2.2 rfl

end StepCA
